import Mathlib

/-!
Shallow embedding of the ingl-DAO/Markets validator-marketplace program
(src/state.rs and src/processes/{buy,mediate,request_mediation,delist,
validate_secondary_items_transfers,withdraw_rewards}.rs).

Conventions of the embedding:
* Solana public keys are modelled as natural numbers; the concrete base58
  constants of the source are opaque distinct naturals.
* Machine integers (u8/u32/u64/u128) are naturals.  Rust checked_* calls are
  modelled by Option-returning functions; the source converts a None from a
  checked operation into InglError::OptionUnwrapError via OptionExt::error_log,
  and we do the same.  Unchecked Rust integer arithmetic (the u64 item-cost
  summation and doubling in buy.rs, the u8 share sum in state.rs) wraps in a
  release build, which is how Solana programs are compiled; the embedding
  therefore reduces those operations modulo 2^64 / 2^8.
* Account-identity assertions that depend on find_program_address or on the
  account owner (assert_seed, assert_owner) are modelled as boolean inputs;
  both raise InglError::AddressMismatch on failure, exactly as utils.rs does
  (assert_seed and assert_owner both go through Pubkey::assert_match).
* A cross-program system transfer moves lamports and fails when the source
  balance is insufficient; the CPI signing mechanics are outside the model.
* An operation is one atomic unit (spec section 5): an Except.error result
  carries no storage mutation and no transfer.
* Rust out-of-bounds slice indexing aborts the program without returning a
  documented error code; the embedding reports it as the distinguished
  PErr.crash outcome.
-/

namespace Markets

/-- Wrapping bound of u64 arithmetic. -/
def U64 : Nat := 2 ^ 64

/-- Wrapping bound of u8 arithmetic. -/
def U8 : Nat := 2 ^ 8

/-- Truncating cast to u64 (Rust: the trailing as u64 on u128 expressions). -/
def u64Cast (x : Nat) : Nat := x % U64

/-- Public keys are opaque naturals. -/
abbrev Pubkey := Nat

/-- Constant ESCROWED_BASIS_POINTS from state.rs consts. -/
def ESCROWED_BASIS_POINTS : Nat := 2000

/-- Constant TEAM_FEES_BASIS_POINTS from state.rs consts. -/
def TEAM_FEES_BASIS_POINTS : Nat := 10

/-- Opaque stand-in for the TEAM_ADDRESS pubkey constant of state.rs. -/
def TEAM_ADDRESS : Pubkey := 7001

/-- MEDIATORS allow-list of state.rs: the single team address. -/
def MEDIATORS : List Pubkey := [TEAM_ADDRESS]

/-- Purchase record (state.rs).  In Rust it derives Copy and Clone. -/
structure Purchase where
  buyer : Pubkey
  date : Nat
  date_finalized : Option Nat
deriving DecidableEq, Repr

/-- StoredSecondaryItem record (state.rs). -/
structure StoredSecondaryItem where
  cost : Nat
  name : String
  description : String
  date_validated : Option Nat
deriving DecidableEq, Repr

/-- MediationShares record (state.rs); each field is a u8 in the source. -/
structure MediationShares where
  buyer : Nat
  seller : Nat
  team : Nat
deriving DecidableEq, Repr

/-- Storage record (state.rs), the Listing ledger.  The field compared with
the clock in request_mediation.rs is named mediatable_date there. -/
structure Storage where
  authorized_withdrawer : Pubkey
  vote_account : Pubkey
  authorized_withdrawer_cost : Nat
  mediatable_date : Nat
  purchase : Option Purchase
  request_mediation_date : Option Nat
  mediation_date : Option Nat
  mediation_shares : Option MediationShares
  secondary_items : List StoredSecondaryItem
  description : String
  validator_name : String
  validator_logo_url : String
deriving DecidableEq, Repr

/-- InglError variants (error.rs; NotAuthorized is raised by
request_mediation.rs and mediate.rs). -/
inductive InglError
  | AddressMismatch
  | InvalidStructType
  | TooEarly
  | TooLate
  | BeyondBounds
  | InvalidValPhrase
  | ExpectedBufferAccount
  | OptionUnwrapError
  | InvalidData
  | NotAuthorized
deriving DecidableEq, Repr

/-- Outcome of a failing operation: a returned program error, a missing
required signature, a failed system-program transfer, or a Rust abort that
returns no documented error code (out-of-bounds indexing). -/
inductive PErr
  | ingl : InglError → PErr
  | missingSignature : PErr
  | sysErr : PErr
  | crash : PErr
deriving DecidableEq, Repr

/-- A lamport movement performed by an operation. -/
structure Transfer where
  source : Pubkey
  dest : Pubkey
  amount : Nat
deriving DecidableEq, Repr

/-- Total amount a transfer list delivers to a given destination key. -/
def amountTo (ts : List Transfer) (dest : Pubkey) : Nat :=
  ((ts.filter (fun t => t.dest = dest)).map (fun t => t.amount)).sum

/-- OptionExt::error_log of utils.rs: None becomes InglError::OptionUnwrapError. -/
def optUnwrap {α : Type} (o : Option α) : Except PErr α :=
  match o with
  | some v => Except.ok v
  | none => Except.error (PErr.ingl InglError.OptionUnwrapError)

/-- AccountInfoHelpers::assert_key_match of utils.rs. -/
def assertKeyMatch (k expected : Pubkey) : Except PErr Unit :=
  if k = expected then Except.ok () else Except.error (PErr.ingl InglError.AddressMismatch)

/-- AccountInfoHelpers::assert_signer of utils.rs. -/
def assertSigner (isSigner : Bool) : Except PErr Unit :=
  if isSigner then Except.ok () else Except.error PErr.missingSignature

/-- Abstracted assert_seed / assert_owner check of utils.rs: both raise
InglError::AddressMismatch when the supplied account is not the expected one. -/
def assertAccount (ok : Bool) : Except PErr Unit :=
  if ok then Except.ok () else Except.error (PErr.ingl InglError.AddressMismatch)

/-- Guard raising the given error when the condition holds (the Rust
if cond { Err(..)? } idiom). -/
def guardNot (cond : Bool) (e : PErr) : Except PErr Unit :=
  if cond then Except.error e else Except.ok ()

/-- Rust u64::checked_mul. -/
def checkedMul64 (a b : Nat) : Option Nat :=
  if a * b < U64 then some (a * b) else none

/-- Rust u128::checked_mul. -/
def checkedMul128 (a b : Nat) : Option Nat :=
  if a * b < 2 ^ 128 then some (a * b) else none

/-- Rust checked_div: fails only on a zero divisor. -/
def checkedDiv (a b : Nat) : Option Nat :=
  if b = 0 then none else some (a / b)

/-- Rust u64::checked_sub. -/
def checkedSub (a b : Nat) : Option Nat :=
  if b ≤ a then some (a - b) else none

/-- Rust u64::checked_add. -/
def checkedAdd64 (a b : Nat) : Option Nat :=
  if a + b < U64 then some (a + b) else none

/-- Iterator sum of u64 values (Rust sum with wrapping release arithmetic). -/
def sumU64 (costs : List Nat) : Nat :=
  costs.foldl (fun acc c => (acc + c) % U64) 0

/-- System-program transfer: returns the new source balance, failing when the
source balance is insufficient. -/
def sysTransfer (srcBalance amount : Nat) : Except PErr Nat :=
  if amount ≤ srcBalance then Except.ok (srcBalance - amount) else Except.error PErr.sysErr

/-- Check shared by validate_secondary_items_transfers.rs and mediate.rs:
whether the stored purchase exists and is already finalized. -/
def purchaseFinalized (st : Storage) : Bool :=
  match st.purchase with
  | some p => p.date_finalized.isSome
  | none => false

/-- MediationShares::verify_sum of state.rs.  The source adds three u8 fields
with unchecked arithmetic, so in a release build the comparison is made on the
sum reduced modulo 2^8. -/
def verify_sum (s : MediationShares) : Except PErr Unit :=
  if ((s.buyer + s.seller) % U8 + s.team) % U8 ≠ 100 then
    Except.error (PErr.ingl InglError.InvalidData)
  else
    Except.ok ()

/-- Escrow basis points applied by buy.rs: ESCROWED_BASIS_POINTS when
secondary items exist, otherwise 0. -/
def escrowBpOf (st : Storage) : Nat :=
  if st.secondary_items.length > 0 then ESCROWED_BASIS_POINTS else 0

/-- Wrapped u64 sum of the stored secondary-item costs (buy.rs line 97 and
validate_secondary_items_transfers.rs line 78). -/
def secondaryItemCost (items : List StoredSecondaryItem) : Nat :=
  sumU64 (items.map (fun it => it.cost))

/-- Result of verify_transfer_cost_and_edit_storage: the rewritten Listing
and the lamport movements performed. -/
structure BuyResult where
  storage : Storage
  transfers : List Transfer
  payerBalance : Nat
deriving DecidableEq, Repr

/-- verify_transfer_cost_and_edit_storage of buy.rs (lines 67-181): the fee
split, the three transfers and the purchase write of the Buy operation. -/
def verify_transfer_cost_and_edit_storage
    (st : Storage)
    (storagePdaOk : Bool) (escrowPdaOk : Bool)
    (payerKey registeredAwKey escrowKey teamKey : Pubkey)
    (payerLamports : Nat) (now : Nat) : Except PErr BuyResult := do
  assertAccount storagePdaOk
  assertKeyMatch registeredAwKey st.authorized_withdrawer
  assertAccount escrowPdaOk
  assertKeyMatch teamKey TEAM_ADDRESS
  guardNot st.purchase.isSome (PErr.ingl InglError.TooLate)
  let secondary_item_cost := secondaryItemCost st.secondary_items
  let ownerMul ← optUnwrap (checkedMul128 st.authorized_withdrawer_cost
    (10000 - escrowBpOf st - TEAM_FEES_BASIS_POINTS))
  let ownerDiv ← optUnwrap (checkedDiv ownerMul 10000)
  let to_owner := u64Cast ownerDiv
  let escrowMul ← optUnwrap (checkedMul128 st.authorized_withdrawer_cost (escrowBpOf st))
  let escrowDiv ← optUnwrap (checkedDiv escrowMul 10000)
  let to_escrow := ((secondary_item_cost * 2) % U64 + u64Cast escrowDiv) % U64
  let teamMul ← optUnwrap (checkedMul128 st.authorized_withdrawer_cost TEAM_FEES_BASIS_POINTS)
  let teamDiv ← optUnwrap (checkedDiv teamMul 10000)
  let to_team := u64Cast teamDiv
  let b1 ← sysTransfer payerLamports to_owner
  let b2 ← (if to_escrow > 0 then sysTransfer b1 to_escrow else Except.ok b1)
  let b3 ← (if to_team > 0 then sysTransfer b2 to_team else Except.ok b2)
  let ts := Transfer.mk payerKey registeredAwKey to_owner ::
    ((if to_escrow > 0 then [Transfer.mk payerKey escrowKey to_escrow] else []) ++
      (if to_team > 0 then [Transfer.mk payerKey teamKey to_team] else []))
  let st1 := { st with purchase := some (Purchase.mk payerKey now
    (if st.secondary_items.isEmpty then some now else none)) }
  Except.ok (BuyResult.mk st1 ts b3)

/-- Result of validate_secondary_items_transfers. -/
structure ValidateResult where
  storage : Storage
  transfers : List Transfer
deriving DecidableEq, Repr

/-- validate_secondary_items_transfers of
validate_secondary_items_transfers.rs (lines 19-113).  The final Rust
statement writes date_finalized through
storage_data.purchase.error_log(..)?: Option of Purchase is Copy and
OptionExt::error_log takes self by value, so that assignment lands on a
temporary copy and the persisted purchase keeps date_finalized unchanged;
the embedding reproduces that (only the unwrap error can propagate). -/
def validate_secondary_items_transfers
    (st : Storage)
    (buyerIsSigner : Bool) (storagePdaOk : Bool) (escrowPdaOk : Bool)
    (buyerKey escrowKey awKey : Pubkey)
    (escrowLamports : Nat) (itemIndex : Nat) (now : Nat) : Except PErr ValidateResult := do
  assertSigner buyerIsSigner
  assertAccount storagePdaOk
  assertAccount escrowPdaOk
  assertKeyMatch awKey st.authorized_withdrawer
  guardNot (purchaseFinalized st) (PErr.ingl InglError.TooLate)
  let purchase ← optUnwrap st.purchase
  assertKeyMatch buyerKey purchase.buyer
  if h : itemIndex < st.secondary_items.length then
    let item := st.secondary_items.get ⟨itemIndex, h⟩
    guardNot item.date_validated.isSome (PErr.ingl InglError.TooLate)
    let items1 := st.secondary_items.set itemIndex { item with date_validated := some now }
    let st1 := { st with secondary_items := items1 }
    let invalidated := (items1.filter (fun it => it.date_validated.isNone)).length
    if invalidated = 0 then
      let cost := secondaryItemCost items1
      let remaining ← sysTransfer escrowLamports cost
      let _final ← sysTransfer remaining remaining
      let _p ← optUnwrap st1.purchase
      Except.ok (ValidateResult.mk st1
        [Transfer.mk escrowKey buyerKey cost, Transfer.mk escrowKey awKey remaining])
    else
      Except.ok (ValidateResult.mk st1 [])
  else
    Except.error PErr.crash

/-- Result of mediate. -/
structure MediateResult where
  storage : Storage
  transfers : List Transfer
deriving DecidableEq, Repr

/-- mediate of mediate.rs (lines 20-173).  As in
validate_secondary_items_transfers, the write of date_finalized on lines
89-92 goes through a by-value copy of the purchase option and is lost; only
mediation_date is persisted. -/
def mediate
    (st : Storage) (shares : MediationShares)
    (payerIsSigner : Bool) (storagePdaOk : Bool) (escrowPdaOk : Bool)
    (payerKey awKey buyerKey escrowKey teamKey : Pubkey)
    (escrowLamports : Nat) (now : Nat) : Except PErr MediateResult := do
  assertSigner payerIsSigner
  guardNot (!(MEDIATORS.contains payerKey)) (PErr.ingl InglError.NotAuthorized)
  assertAccount storagePdaOk
  assertAccount escrowPdaOk
  assertKeyMatch teamKey TEAM_ADDRESS
  guardNot (purchaseFinalized st) (PErr.ingl InglError.TooLate)
  assertKeyMatch awKey st.authorized_withdrawer
  (match st.request_mediation_date with
   | some _ => guardNot st.mediation_date.isSome (PErr.ingl InglError.TooLate)
   | none => Except.error (PErr.ingl InglError.TooEarly))
  let purchase ← optUnwrap st.purchase
  assertKeyMatch buyerKey purchase.buyer
  let st1 := { st with mediation_date := some now }
  let _p ← optUnwrap st1.purchase
  verify_sum shares
  let buyerMul ← optUnwrap (checkedMul64 escrowLamports shares.buyer)
  let to_buyer ← optUnwrap (checkedDiv buyerMul 100)
  let sellerMul ← optUnwrap (checkedMul64 escrowLamports shares.seller)
  let to_seller ← optUnwrap (checkedDiv sellerMul 100)
  let buyerSeller ← optUnwrap (checkedAdd64 to_buyer to_seller)
  let to_team ← optUnwrap (checkedSub escrowLamports buyerSeller)
  let e1 ← sysTransfer escrowLamports to_seller
  let e2 ← (if to_buyer > 0 then sysTransfer e1 to_buyer else Except.ok e1)
  let _e3 ← (if to_team > 0 then sysTransfer e2 to_team else Except.ok e2)
  let ts := Transfer.mk escrowKey awKey to_seller ::
    ((if to_buyer > 0 then [Transfer.mk escrowKey buyerKey to_buyer] else []) ++
      (if to_team > 0 then [Transfer.mk escrowKey teamKey to_team] else []))
  Except.ok (MediateResult.mk st1 ts)

/-- request_mediation of request_mediation.rs (lines 14-57). -/
def request_mediation
    (st : Storage)
    (payerIsSigner : Bool) (storagePdaOk : Bool)
    (payerKey : Pubkey) (now : Nat) : Except PErr Storage := do
  assertSigner payerIsSigner
  assertAccount storagePdaOk
  let purchase ← optUnwrap st.purchase
  guardNot (payerKey != st.authorized_withdrawer && payerKey != purchase.buyer)
    (PErr.ingl InglError.NotAuthorized)
  guardNot (now < st.mediatable_date) (PErr.ingl InglError.TooEarly)
  guardNot st.request_mediation_date.isSome (PErr.ingl InglError.TooLate)
  Except.ok { st with request_mediation_date := some now }

/-- Result of verify_and_close_storage: the zeroed account bytes and the two
final balances. -/
structure DelistResult where
  data : List Nat
  storageLamports : Nat
  payerLamports : Nat
deriving DecidableEq, Repr

/-- verify_and_close_storage of delist.rs (lines 77-121): the precondition
check and the destruction of the Listing record. -/
def verify_and_close_storage
    (st : Storage)
    (storagePdaOk : Bool) (payerIsSigner : Bool)
    (payerKey voteKey : Pubkey)
    (storageBytes : List Nat) (storageLamports payerLamports : Nat)
    : Except PErr DelistResult := do
  assertAccount storagePdaOk
  assertSigner payerIsSigner
  assertKeyMatch payerKey st.authorized_withdrawer
  assertKeyMatch voteKey st.vote_account
  guardNot (st.purchase.isSome &&
    st.secondary_items.any (fun it => it.date_validated.isNone))
    (PErr.ingl InglError.TooEarly)
  let newPayer ← optUnwrap (checkedAdd64 payerLamports storageLamports)
  Except.ok (DelistResult.mk (storageBytes.map (fun _ => 0)) 0 newPayer)

/-- Result of withdraw_rewards: the amount withdrawn from the validator and
its recipient. -/
structure WithdrawResult where
  amount : Nat
  recipient : Pubkey
deriving DecidableEq, Repr

/-- withdraw_rewards of withdraw_rewards.rs (lines 17-71).  minLamports is
VoteState::min_lamports(), the rent-exempt minimum reserve. -/
def withdraw_rewards
    (st : Storage)
    (pdaAwOk : Bool) (storagePdaOk : Bool) (voteOwnerOk : Bool)
    (voteKey awKey : Pubkey)
    (voteLamports minLamports : Nat) : Except PErr WithdrawResult := do
  assertAccount pdaAwOk
  assertAccount storagePdaOk
  assertAccount voteOwnerOk
  assertKeyMatch voteKey st.vote_account
  assertKeyMatch awKey st.authorized_withdrawer
  let lamports ← optUnwrap (checkedSub voteLamports minLamports)
  Except.ok (WithdrawResult.mk lamports awKey)

/-- Opaque distinct key constants for concrete instances. -/
def awKey : Pubkey := 1

/-- Opaque vote-account key for concrete instances. -/
def voteKey : Pubkey := 2

/-- Opaque buyer key for concrete instances. -/
def buyerKey : Pubkey := 3

/-- Opaque escrow key for concrete instances. -/
def escrowKey : Pubkey := 4

/-- Opaque payer key for concrete instances. -/
def payerKey : Pubkey := 5

/-- Baseline concrete Listing used to build concrete instances. -/
def baseStorage : Storage :=
  { authorized_withdrawer := awKey
    vote_account := voteKey
    authorized_withdrawer_cost := 0
    mediatable_date := 0
    purchase := none
    request_mediation_date := none
    mediation_date := none
    mediation_shares := none
    secondary_items := []
    description := ""
    validator_name := ""
    validator_logo_url := "" }

/-- Secondary item of given cost with no validation timestamp. -/
def itemOfCost (c : Nat) : StoredSecondaryItem :=
  { cost := c, name := "", description := "", date_validated := none }

/-- Binding an ok value in the Except monad applies the continuation. -/
@[simp] theorem bindOk {α β : Type} (a : α) (f : α → Except PErr β) :
    Except.ok a >>= f = f a := rfl

/-- Binding a propagated error keeps the error. -/
@[simp] theorem bindErr {α β : Type} (e : PErr) (f : α → Except PErr β) :
    (Except.error e : Except PErr α) >>= f = Except.error e := rfl

/-- A passing abstract account assertion. -/
@[simp] theorem assertAccount_true : assertAccount true = Except.ok () := rfl

/-- A failing abstract account assertion raises AddressMismatch. -/
@[simp] theorem assertAccount_false :
    assertAccount false = Except.error (PErr.ingl InglError.AddressMismatch) := rfl

/-- A present signature passes assert_signer. -/
@[simp] theorem assertSigner_true : assertSigner true = Except.ok () := rfl

/-- A missing signature fails assert_signer. -/
@[simp] theorem assertSigner_false :
    assertSigner false = Except.error PErr.missingSignature := rfl

/-- Matching keys pass assert_key_match. -/
@[simp] theorem assertKeyMatch_self (k : Pubkey) : assertKeyMatch k k = Except.ok () := by
  simp [assertKeyMatch]

/-- A guard on a false condition passes. -/
@[simp] theorem guardNot_false (e : PErr) : guardNot false e = Except.ok () := rfl

/-- A guard on a true condition raises its error. -/
@[simp] theorem guardNot_true (e : PErr) : guardNot true e = Except.error e := rfl

/-- Unwrapping a present option succeeds. -/
@[simp] theorem optUnwrap_some {α : Type} (a : α) : optUnwrap (some a) = Except.ok a := rfl

/-- Unwrapping an absent option raises OptionUnwrapError. -/
@[simp] theorem optUnwrap_none {α : Type} :
    optUnwrap (none : Option α) = Except.error (PErr.ingl InglError.OptionUnwrapError) := rfl

/-- A sufficiently funded system transfer succeeds. -/
theorem sysTransfer_le {b a : Nat} (h : a ≤ b) :
    sysTransfer b a = Except.ok (b - a) := by
  simp [sysTransfer, h]

/-- Inversion of a bind producing an ok value. -/
@[simp] theorem bind_ok_iff {α β : Type} {x : Except PErr α} {f : α → Except PErr β} {r : β} :
    x >>= f = Except.ok r ↔ ∃ a, x = Except.ok a ∧ f a = Except.ok r := by
  cases x <;> simp

/-- Inversion of an abstract account assertion. -/
@[simp] theorem assertAccount_ok_iff {b : Bool} {u : Unit} :
    assertAccount b = Except.ok u ↔ b = true := by
  cases b <;> simp [assertAccount]

/-- Inversion of assert_key_match. -/
@[simp] theorem assertKeyMatch_ok_iff {k e : Pubkey} {u : Unit} :
    assertKeyMatch k e = Except.ok u ↔ k = e := by
  by_cases h : k = e <;> simp [assertKeyMatch, h]

/-- Inversion of assert_signer. -/
@[simp] theorem assertSigner_ok_iff {b : Bool} {u : Unit} :
    assertSigner b = Except.ok u ↔ b = true := by
  cases b <;> simp [assertSigner]

/-- Inversion of a passing guard. -/
@[simp] theorem guardNot_ok_iff {c : Bool} {e : PErr} {u : Unit} :
    guardNot c e = Except.ok u ↔ c = false := by
  cases c <;> simp [guardNot]

/-- Inversion of a successful option unwrap. -/
@[simp] theorem optUnwrap_ok_iff {α : Type} {o : Option α} {a : α} :
    optUnwrap o = Except.ok a ↔ o = some a := by
  cases o <;> simp [optUnwrap]

/-- Inversion of a successful system transfer. -/
@[simp] theorem sysTransfer_ok_iff {b a r : Nat} :
    sysTransfer b a = Except.ok r ↔ a ≤ b ∧ r = b - a := by
  by_cases h : a ≤ b <;> simp [sysTransfer, h]
  omega

/-- Inversion of verify_sum: it passes exactly when the u8-wrapped share sum
equals 100. -/
@[simp] theorem verify_sum_ok_iff {s : MediationShares} {u : Unit} :
    verify_sum s = Except.ok u ↔ (s.buyer + s.seller + s.team) % U8 = 100 := by
  by_cases h : (s.buyer + s.seller + s.team) % U8 = 100 <;>
    simp [verify_sum, Nat.mod_add_mod, h]

/-- Rejecting direction of verify_sum. -/
theorem verify_sum_ne {s : MediationShares}
    (h : (s.buyer + s.seller + s.team) % U8 ≠ 100) :
    verify_sum s = Except.error (PErr.ingl InglError.InvalidData) := by
  simp [verify_sum, Nat.mod_add_mod, h]

/-- A stored purchase that is not finalized does not trip the
purchase-finalized guard. -/
theorem purchaseFinalized_false {st : Storage} {p : Purchase}
    (hp : st.purchase = some p) (hf : p.date_finalized = none) :
    purchaseFinalized st = false := by
  simp [purchaseFinalized, hp, hf]

/-- Wrapped left fold of u64 additions computes the sum modulo 2^64. -/
theorem foldl_wrap (l : List Nat) (a : Nat) (ha : a < U64) :
    l.foldl (fun acc c => (acc + c) % U64) a = (a + l.sum) % U64 := by
  induction l generalizing a with
  | nil => simpa using (Nat.mod_eq_of_lt ha).symm
  | cons x xs ih =>
      simp only [List.foldl_cons, List.sum_cons]
      rw [ih ((a + x) % U64) (Nat.mod_lt _ (by norm_num [U64]))]
      calc ((a + x) % U64 + xs.sum) % U64
          = ((a + x) + xs.sum) % U64 :=
            Nat.ModEq.add_right xs.sum (Nat.mod_modEq (a + x) U64)
        _ = (a + (x + xs.sum)) % U64 := by rw [Nat.add_assoc]

/-- The wrapped u64 iterator sum is the plain sum modulo 2^64. -/
theorem sumU64_eq (l : List Nat) : sumU64 l = l.sum % U64 := by
  simpa using foldl_wrap l 0 (by norm_num [U64])

/-- The wrapped cost sum of an item list is the plain cost sum modulo 2^64. -/
theorem secondaryItemCost_eq (items : List StoredSecondaryItem) :
    secondaryItemCost items = (items.map (fun it => it.cost)).sum % U64 :=
  sumU64_eq _

/-- C1: validating the last unvalidated item of a sold, unfinalized listing
does release the escrow (sum of item costs to the buyer, the full remaining
balance to the seller), but the persisted purchase keeps
date_finalized = none: the Rust assignment
storage_data.purchase.error_log(..)?.date_finalized = Some(now) writes
through a by-value copy of the Copy option, so the written record never
receives the finalization timestamp that the claim (and the spec) require. -/
theorem c1_finalization_not_persisted :
    validate_secondary_items_transfers
      { baseStorage with
          purchase := some (Purchase.mk buyerKey 5 none)
          secondary_items := [itemOfCost 10] }
      true true true buyerKey escrowKey awKey 25 0 99
    = Except.ok (ValidateResult.mk
        { baseStorage with
            purchase := some (Purchase.mk buyerKey 5 none)
            secondary_items := [{ itemOfCost 10 with date_validated := some 99 }] }
        [Transfer.mk escrowKey buyerKey 10, Transfer.mk escrowKey awKey 15]) := by
  rfl

/-- C3: mediating with shares buyer 40, seller 40, team 20 over an escrow of
101 pays seller 40, buyer 40 and team 21 (the rounding remainder) and sets
mediation_date, but the persisted purchase keeps date_finalized = none: the
assignment on mediate.rs lines 89-92 goes through a by-value copy of the
purchase option, so the finalization timestamp the claim requires is never
stored. -/
theorem c3_mediate_finalization_not_persisted :
    mediate
      { baseStorage with
          purchase := some (Purchase.mk buyerKey 5 none)
          request_mediation_date := some 50 }
      (MediationShares.mk 40 40 20)
      true true true TEAM_ADDRESS awKey buyerKey escrowKey TEAM_ADDRESS 101 77
    = Except.ok (MediateResult.mk
        { baseStorage with
            purchase := some (Purchase.mk buyerKey 5 none)
            request_mediation_date := some 50
            mediation_date := some 77 }
        [Transfer.mk escrowKey awKey 40, Transfer.mk escrowKey buyerKey 40,
          Transfer.mk escrowKey TEAM_ADDRESS 21]) := by
  rfl

/-- C9: the item-cost summation in buy.rs uses an unchecked u64 sum (and an
unchecked doubling), unlike every other computation of the function, which
goes through checked_mul / checked_div.  With two items of cost 2^63 the sum
wraps to 0, and the Buy succeeds, transferring only the basis-point carve-out
(2000 lamports of a 10000 price) to escrow instead of aborting with an error
as the claim (and spec section 7) require. -/
theorem c9_item_cost_sum_wraps :
    verify_transfer_cost_and_edit_storage
      { baseStorage with
          authorized_withdrawer_cost := 10000
          secondary_items := [itemOfCost (2 ^ 63), itemOfCost (2 ^ 63)] }
      true true payerKey awKey escrowKey TEAM_ADDRESS 10000000000 99
    = Except.ok (BuyResult.mk
        { baseStorage with
            authorized_withdrawer_cost := 10000
            secondary_items := [itemOfCost (2 ^ 63), itemOfCost (2 ^ 63)]
            purchase := some (Purchase.mk payerKey 99 none) }
        [Transfer.mk payerKey awKey 7990, Transfer.mk payerKey escrowKey 2000,
          Transfer.mk payerKey TEAM_ADDRESS 10]
        (10000000000 - 10000)) := by
  rfl

/-- C2 counterexample: for a listing of price 0 with one secondary item of
cost 2^63, the claim asserts the escrow receives
2 * sum(item costs) + floor(0 * ESCROW_BP / 10000) = 2^64 lamports, but the
doubling is unchecked u64 arithmetic and wraps to 0, so a successful Buy
moves nothing to the escrow. -/
theorem c2_counterexample :
    (verify_transfer_cost_and_edit_storage
        { baseStorage with secondary_items := [itemOfCost (2 ^ 63)] }
        true true payerKey awKey escrowKey TEAM_ADDRESS 1000 99
      = Except.ok (BuyResult.mk
          { baseStorage with
              secondary_items := [itemOfCost (2 ^ 63)]
              purchase := some (Purchase.mk payerKey 99 none) }
          [Transfer.mk payerKey awKey 0] 1000))
    ∧ amountTo [Transfer.mk payerKey awKey 0] escrowKey = 0
    ∧ 2 * 2 ^ 63 + 0 * ESCROWED_BASIS_POINTS / 10000 ≠ 0 := by
  refine ⟨rfl, rfl, by decide⟩

/-- C4 counterexample: MediationShares::verify_sum adds the three u8 shares
with unchecked arithmetic, which wraps modulo 256 in a release build, so the
split buyer 200, seller 156, team 0 — whose true total is 356, not 100 — is
accepted instead of being rejected with InvalidData. -/
theorem c4_counterexample :
    verify_sum (MediationShares.mk 200 156 0) = Except.ok ()
    ∧ 200 + 156 + 0 ≠ 100 := by
  exact ⟨rfl, by decide⟩

/-- C8: with the derived-address checks passing, WithdrawRewards fails with
AddressMismatch whenever the supplied vote account key differs from the
stored vote_account reference (whatever the owner check says); with matching
accounts it withdraws exactly validator_balance - minimum_reserve to the
recorded authorized withdrawer, and aborts instead of withdrawing whenever
the balance is below the reserve. -/
theorem c8_withdraw_rewards_spec (st : Storage) (voteOwnerOk : Bool)
    (vk ak : Pubkey) (voteLamports minLamports : Nat) :
    (vk ≠ st.vote_account →
      withdraw_rewards st true true voteOwnerOk vk ak voteLamports minLamports
        = Except.error (PErr.ingl InglError.AddressMismatch))
    ∧ (vk = st.vote_account → ak = st.authorized_withdrawer →
        minLamports ≤ voteLamports →
        withdraw_rewards st true true true vk ak voteLamports minLamports
          = Except.ok (WithdrawResult.mk (voteLamports - minLamports)
              st.authorized_withdrawer))
    ∧ (vk = st.vote_account → ak = st.authorized_withdrawer →
        voteLamports < minLamports →
        withdraw_rewards st true true true vk ak voteLamports minLamports
          = Except.error (PErr.ingl InglError.OptionUnwrapError)) := by
  refine ⟨?_, ?_, ?_⟩
  · intro h
    cases voteOwnerOk
    · simp [withdraw_rewards]
    · simp [withdraw_rewards, assertKeyMatch, h]
  · intro h1 h2 h3
    subst h1; subst h2
    simp [withdraw_rewards, checkedSub, h3]
  · intro h1 h2 h3
    subst h1; subst h2
    have h4 : ¬ minLamports ≤ voteLamports := by omega
    simp [withdraw_rewards, checkedSub, h4]

/-- C8 witness: a concrete successful reward withdrawal of 100 - 30 = 70. -/
theorem c8_withdraw_rewards_witness :
    withdraw_rewards baseStorage true true true voteKey awKey 100 30
      = Except.ok (WithdrawResult.mk 70 awKey) :=
  (c8_withdraw_rewards_spec baseStorage true voteKey awKey 100 30).2.1 rfl rfl
    (by decide)

/-- C10: on a sold, unfinalized listing, with the buyer signing and the
accounts matching, an item index at or beyond the number of stored secondary
items makes ValidateSecondaryItemsTransfers index out of bounds — a Rust
abort that returns no documented error code. -/
theorem c10_index_out_of_bounds (st : Storage) (p : Purchase) (ek : Pubkey)
    (escrowLamports itemIndex now : Nat)
    (hp : st.purchase = some p) (hf : p.date_finalized = none)
    (hidx : st.secondary_items.length ≤ itemIndex) :
    validate_secondary_items_transfers st true true true p.buyer ek
      st.authorized_withdrawer escrowLamports itemIndex now
    = Except.error PErr.crash := by
  have hlt : ¬ itemIndex < st.secondary_items.length := by omega
  simp [validate_secondary_items_transfers, purchaseFinalized_false hp hf, hp, hlt]

/-- C10 witness: a sold listing with no secondary items crashes on index 0. -/
theorem c10_index_out_of_bounds_witness :
    validate_secondary_items_transfers
      { baseStorage with purchase := some (Purchase.mk buyerKey 5 none) }
      true true true buyerKey escrowKey awKey 25 0 99
    = Except.error PErr.crash :=
  c10_index_out_of_bounds
    { baseStorage with purchase := some (Purchase.mk buyerKey 5 none) }
    (Purchase.mk buyerKey 5 none) escrowKey 25 0 99 rfl rfl (by decide)

/-- C7: with the seller signing and the supplied accounts matching the
record, Delist storage closing fails with TooEarly whenever a purchase exists
and at least one secondary item is unvalidated; when no purchase exists or
every item is validated it succeeds, zeroing every byte of the Listing
record, emptying its balance and crediting the whole of it to the seller. -/
theorem c7_delist_close_spec (st : Storage) (bytes : List Nat)
    (storageLamports payerLamports : Nat)
    (hadd : payerLamports + storageLamports < U64) :
    ((st.purchase.isSome ∧ ∃ it ∈ st.secondary_items, it.date_validated = none) →
      verify_and_close_storage st true true st.authorized_withdrawer st.vote_account
        bytes storageLamports payerLamports
      = Except.error (PErr.ingl InglError.TooEarly))
    ∧ ((st.purchase = none ∨ ∀ it ∈ st.secondary_items, it.date_validated ≠ none) →
        verify_and_close_storage st true true st.authorized_withdrawer st.vote_account
          bytes storageLamports payerLamports
        = Except.ok (DelistResult.mk (bytes.map (fun _ => 0)) 0
            (payerLamports + storageLamports)))
    ∧ (∀ b ∈ bytes.map (fun _ => (0 : Nat)), b = 0) := by
  refine ⟨?_, ?_, by simp⟩
  · rintro ⟨h1, it, hmem, hval⟩
    have hany : st.secondary_items.any (fun it => it.date_validated.isNone) = true := by
      simp only [List.any_eq_true]
      exact ⟨it, hmem, by simp [hval]⟩
    simp [verify_and_close_storage, h1, hany]
  · intro h
    have hcond : (st.purchase.isSome &&
        st.secondary_items.any (fun it => it.date_validated.isNone)) = false := by
      rcases h with h | h
      · simp [h]
      · simp only [Bool.and_eq_false_iff]
        right
        simp only [List.any_eq_false]
        intro it hmem
        simpa [Option.isNone_iff_eq_none] using h it hmem
    simp [verify_and_close_storage, hcond, checkedAdd64, hadd]

/-- C7 witness: delisting an unsold listing zeroes its three record bytes and
credits its 50 lamports to the seller holding 7. -/
theorem c7_delist_close_witness :
    verify_and_close_storage baseStorage true true awKey voteKey [9, 8, 7] 50 7
      = Except.ok (DelistResult.mk [0, 0, 0] 0 57) :=
  ((c7_delist_close_spec baseStorage [9, 8, 7] 50 7 (by decide)).2.1) (Or.inl rfl)

/-- C6: with the caller signing and the storage account matching,
RequestMediation fails with OptionUnwrapError when no purchase exists, with
NotAuthorized when the caller is neither the recorded buyer nor the seller,
with TooEarly before the stored mediation window date, with TooLate when a
mediation request was already recorded, and otherwise succeeds setting
request_mediation_date to the current time and changing no other field. -/
theorem c6_request_mediation_spec (st : Storage) (pk : Pubkey) (now : Nat) :
    (st.purchase = none →
      request_mediation st true true pk now
        = Except.error (PErr.ingl InglError.OptionUnwrapError))
    ∧ (∀ p, st.purchase = some p →
        ((pk ≠ st.authorized_withdrawer ∧ pk ≠ p.buyer) →
          request_mediation st true true pk now
            = Except.error (PErr.ingl InglError.NotAuthorized))
        ∧ ((pk = st.authorized_withdrawer ∨ pk = p.buyer) →
            (now < st.mediatable_date →
              request_mediation st true true pk now
                = Except.error (PErr.ingl InglError.TooEarly))
            ∧ (st.mediatable_date ≤ now →
                (st.request_mediation_date.isSome →
                  request_mediation st true true pk now
                    = Except.error (PErr.ingl InglError.TooLate))
                ∧ (st.request_mediation_date = none →
                    request_mediation st true true pk now
                      = Except.ok { st with request_mediation_date := some now })))) := by
  constructor
  · intro h
    simp [request_mediation, h]
  · intro p hp
    constructor
    · rintro ⟨h1, h2⟩
      have hguard : (pk != st.authorized_withdrawer && pk != p.buyer) = true := by
        simp [bne_iff_ne, h1, h2]
      simp [request_mediation, hp, hguard]
    · intro hauth
      have hguard : (pk != st.authorized_withdrawer && pk != p.buyer) = false := by
        rcases hauth with h | h <;> simp [h]
      constructor
      · intro hearly
        simp [request_mediation, hp, hguard, hearly]
      · intro hlate
        have hnotlt : ¬ now < st.mediatable_date := by omega
        constructor
        · intro hsome
          simp [request_mediation, hp, hguard, hnotlt, hsome]
        · intro hnone
          simp [request_mediation, hp, hguard, hnotlt, hnone]

/-- C6 witness: a concrete first mediation request by the seller at time 80,
at or after the window date 60, records request_mediation_date = 80. -/
theorem c6_request_mediation_witness :
    request_mediation
      { baseStorage with
          purchase := some (Purchase.mk buyerKey 5 none)
          mediatable_date := 60 }
      true true awKey 80
    = Except.ok
        { baseStorage with
            purchase := some (Purchase.mk buyerKey 5 none)
            mediatable_date := 60
            request_mediation_date := some 80 } :=
  (((c6_request_mediation_spec
      { baseStorage with
          purchase := some (Purchase.mk buyerKey 5 none)
          mediatable_date := 60 }
      awKey 80).2 (Purchase.mk buyerKey 5 none) rfl).2
    (Or.inl rfl)).2 (by decide) |>.2 rfl

/-- C5: with matching accounts, Buy on a listing whose purchase is already
set fails with TooLate (the operation is atomic, so an error leaves the
record and all balances untouched); and any successful Buy persists a
purchase whose buyer is the payer, whose date is the current time, and whose
date_finalized is Some exactly when the secondary-item list is empty, leaving
the item list itself unchanged. -/
theorem c5_buy_purchase_spec (st : Storage) (spo epo : Bool)
    (payerK rk ek tk : Pubkey) (payerLamports now : Nat) :
    (st.purchase.isSome →
      verify_transfer_cost_and_edit_storage st true true payerK
        st.authorized_withdrawer ek TEAM_ADDRESS payerLamports now
      = Except.error (PErr.ingl InglError.TooLate))
    ∧ (∀ r, verify_transfer_cost_and_edit_storage st spo epo payerK rk ek tk
          payerLamports now = Except.ok r →
        r.storage.purchase = some (Purchase.mk payerK now
          (if st.secondary_items.isEmpty then some now else none))
        ∧ r.storage.secondary_items = st.secondary_items) := by
  constructor
  · intro h
    simp [verify_transfer_cost_and_edit_storage, h]
  · intro r h
    simp only [verify_transfer_cost_and_edit_storage, bind_ok_iff, assertAccount_ok_iff,
      assertKeyMatch_ok_iff, guardNot_ok_iff, optUnwrap_ok_iff, sysTransfer_ok_iff,
      Except.ok.injEq] at h
    repeat first
      | (obtain ⟨_, _, h⟩ := h)
      | (obtain ⟨_, h⟩ := h)
    exact ⟨rfl, rfl⟩

/-- C5 witness: a concrete first Buy of a 10000-lamport listing with no
secondary items records the payer, the time, and an immediate finalization. -/
theorem c5_buy_purchase_witness :
    ({ baseStorage with authorized_withdrawer_cost := 10000 } : Storage).purchase.isSome
      = false
    ∧ ∀ r, verify_transfer_cost_and_edit_storage
        { baseStorage with authorized_withdrawer_cost := 10000 }
        true true payerKey awKey escrowKey TEAM_ADDRESS 20000 99 = Except.ok r →
      r.storage.purchase = some (Purchase.mk payerKey 99 (some 99))
        ∧ r.storage.secondary_items = [] :=
  ⟨rfl, fun r h =>
    (c5_buy_purchase_spec { baseStorage with authorized_withdrawer_cost := 10000 }
      true true payerKey awKey escrowKey TEAM_ADDRESS 20000 99).2 r h⟩

/-- C4 amended: verify_sum adds the three u8 share components with wrapping
arithmetic, so Mediate (here with an authorized mediator, a sold unfinalized
listing and a pending mediation request) rejects with InvalidData exactly the
splits whose component sum reduced modulo 256 differs from 100 — an error
raised before any transfer is performed — and any accepted split has
component sum congruent to 100 modulo 256 (not necessarily equal to 100,
as the c4_counterexample split 200 + 156 + 0 shows). -/
theorem c4_mediate_share_sum (st : Storage) (shares : MediationShares)
    (p : Purchase) (ek : Pubkey) (escrowLamports now d : Nat)
    (hp : st.purchase = some p) (hf : p.date_finalized = none)
    (hreq : st.request_mediation_date = some d) (hmed : st.mediation_date = none) :
    ((shares.buyer + shares.seller + shares.team) % U8 ≠ 100 →
      mediate st shares true true true TEAM_ADDRESS st.authorized_withdrawer p.buyer ek
        TEAM_ADDRESS escrowLamports now
      = Except.error (PErr.ingl InglError.InvalidData))
    ∧ (∀ r, mediate st shares true true true TEAM_ADDRESS st.authorized_withdrawer p.buyer ek
          TEAM_ADDRESS escrowLamports now = Except.ok r →
        (shares.buyer + shares.seller + shares.team) % U8 = 100) := by
  constructor
  · intro h
    simp [mediate, hp, purchaseFinalized_false hp hf, hreq, hmed, verify_sum_ne h,
      MEDIATORS]
  · intro r h
    simp only [mediate, hp, hreq, hmed, bind_ok_iff, assertSigner_ok_iff,
      assertAccount_ok_iff, assertKeyMatch_ok_iff, guardNot_ok_iff, optUnwrap_ok_iff,
      sysTransfer_ok_iff, verify_sum_ok_iff, Except.ok.injEq] at h
    repeat first
      | (obtain ⟨_, _, h⟩ := h)
      | (obtain ⟨_, h⟩ := h)
    assumption

/-- C4 witness: a split of 50 + 49 + 0 = 99 is rejected with InvalidData on a
concrete mediatable listing. -/
theorem c4_mediate_share_sum_witness :
    mediate
      { baseStorage with
          purchase := some (Purchase.mk buyerKey 5 none)
          request_mediation_date := some 50 }
      (MediationShares.mk 50 49 0)
      true true true TEAM_ADDRESS awKey buyerKey escrowKey TEAM_ADDRESS 101 77
    = Except.error (PErr.ingl InglError.InvalidData) :=
  (c4_mediate_share_sum
    { baseStorage with
        purchase := some (Purchase.mk buyerKey 5 none)
        request_mediation_date := some 50 }
    (MediationShares.mk 50 49 0) (Purchase.mk buyerKey 5 none) escrowKey 101 77 50
    rfl rfl rfl rfl).1 (by decide)

/-- Inversion of a successful u128 checked multiplication. -/
theorem checkedMul128_some {a b c : Nat} (h : checkedMul128 a b = some c) : c = a * b := by
  unfold checkedMul128 at h
  split at h
  · exact (Option.some.inj h).symm
  · cases h

/-- Inversion of a successful checked division. -/
theorem checkedDiv_some {a b c : Nat} (h : checkedDiv a b = some c) : c = a / b := by
  unfold checkedDiv at h
  split at h
  · cases h
  · exact (Option.some.inj h).symm

/-- A basis-point cut of P never exceeds P. -/
theorem cut_le {P m : Nat} (hm : m ≤ 10000) : P * m / 10000 ≤ P := by
  have h1 : P * m ≤ P * 10000 := Nat.mul_le_mul_left P hm
  have h2 : P * m / 10000 ≤ P * 10000 / 10000 := Nat.div_le_div_right h1
  omega

/-- The u64 cast of a basis-point cut of a u64 price is the identity. -/
theorem u64Cast_cut {P m : Nat} (hP : P < U64) (hm : m ≤ 10000) :
    u64Cast (P * m / 10000) = P * m / 10000 :=
  Nat.mod_eq_of_lt (lt_of_le_of_lt (cut_le hm) hP)

/-- The escrow basis points of any listing are at most 10000. -/
theorem escrowBpOf_le (st : Storage) : escrowBpOf st ≤ 10000 := by
  unfold escrowBpOf ESCROWED_BASIS_POINTS
  split <;> omega

/-- The wrapped escrow amount computed by buy equals the plain expression of
the amended claim, reduced modulo 2^64. -/
theorem to_escrow_eq (items : List StoredSecondaryItem) (cut : Nat) (hcut : cut < U64) :
    (secondaryItemCost items * 2 % U64 + u64Cast cut) % U64
      = (2 * (items.map (fun it => it.cost)).sum + cut) % U64 := by
  have h2 : (2 : Nat) % U64 = 2 := by norm_num [U64]
  have hs : (items.map (fun it => it.cost)).sum % U64 * 2 % U64
      = (items.map (fun it => it.cost)).sum * 2 % U64 := by
    conv_rhs => rw [Nat.mul_mod]
    rw [h2]
  rw [secondaryItemCost_eq, u64Cast, Nat.mod_eq_of_lt hcut, hs, Nat.mod_add_mod]
  congr 1
  ring

/-- Amounts delivered by the transfer list built by buy: the seller leg is
unconditional, the escrow and team legs are present only when nonzero. -/
theorem amountTo_buyList (pK : Pubkey) (x y z : Nat) {aK eK tK : Pubkey}
    (h1 : aK ≠ eK) (h2 : aK ≠ tK) (h3 : eK ≠ tK) :
    amountTo (Transfer.mk pK aK x ::
      ((if y > 0 then [Transfer.mk pK eK y] else []) ++
        (if z > 0 then [Transfer.mk pK tK z] else []))) aK = x
    ∧ amountTo (Transfer.mk pK aK x ::
      ((if y > 0 then [Transfer.mk pK eK y] else []) ++
        (if z > 0 then [Transfer.mk pK tK z] else []))) eK = y
    ∧ amountTo (Transfer.mk pK aK x ::
      ((if y > 0 then [Transfer.mk pK eK y] else []) ++
        (if z > 0 then [Transfer.mk pK tK z] else []))) tK = z := by
  by_cases hy : y > 0 <;> by_cases hz : z > 0 <;>
    refine ⟨?_, ?_, ?_⟩ <;>
    simp [amountTo, hy, hz, h1, h2, h3, Ne.symm h1, Ne.symm h2, Ne.symm h3] <;>
    omega

/-- C2 amended: any successful Buy (with the three payout accounts pairwise
distinct) pays the seller floor(P * (10000 - ESCROW_BP - TEAM_BP) / 10000)
with ESCROW_BP counted as 0 when no secondary items exist, pays the team
floor(P * TEAM_BP / 10000), and pays the escrow
(2 * sum(item costs) + floor(P * ESCROW_BP / 10000)) reduced modulo 2^64 —
the summation and doubling of the item costs are unchecked u64 operations
that wrap, as c2_counterexample shows; a zero escrow or team amount performs
no transfer.  When secondary items exist, the three price-derived cuts add
back to P up to an integer rounding loss of at most 2 units. -/
theorem c2_buy_fee_split (st : Storage) (spo epo : Bool) (payerK ek tk : Pubkey)
    (payerLamports now : Nat) (r : BuyResult)
    (hP : st.authorized_withdrawer_cost < U64)
    (hne1 : st.authorized_withdrawer ≠ ek) (hne2 : st.authorized_withdrawer ≠ tk)
    (hne3 : ek ≠ tk)
    (hok : verify_transfer_cost_and_edit_storage st spo epo payerK
      st.authorized_withdrawer ek tk payerLamports now = Except.ok r) :
    amountTo r.transfers st.authorized_withdrawer
      = st.authorized_withdrawer_cost
        * (10000 - escrowBpOf st - TEAM_FEES_BASIS_POINTS) / 10000
    ∧ amountTo r.transfers tk
      = st.authorized_withdrawer_cost * TEAM_FEES_BASIS_POINTS / 10000
    ∧ amountTo r.transfers ek
      = (2 * (st.secondary_items.map (fun it => it.cost)).sum
          + st.authorized_withdrawer_cost * escrowBpOf st / 10000) % U64
    ∧ (st.secondary_items ≠ [] →
        st.authorized_withdrawer_cost - 2
          ≤ st.authorized_withdrawer_cost
              * (10000 - ESCROWED_BASIS_POINTS - TEAM_FEES_BASIS_POINTS) / 10000
            + st.authorized_withdrawer_cost * ESCROWED_BASIS_POINTS / 10000
            + st.authorized_withdrawer_cost * TEAM_FEES_BASIS_POINTS / 10000
        ∧ st.authorized_withdrawer_cost
              * (10000 - ESCROWED_BASIS_POINTS - TEAM_FEES_BASIS_POINTS) / 10000
            + st.authorized_withdrawer_cost * ESCROWED_BASIS_POINTS / 10000
            + st.authorized_withdrawer_cost * TEAM_FEES_BASIS_POINTS / 10000
          ≤ st.authorized_withdrawer_cost) := by
  simp only [verify_transfer_cost_and_edit_storage, bind_ok_iff, assertAccount_ok_iff,
    assertKeyMatch_ok_iff, guardNot_ok_iff, optUnwrap_ok_iff, sysTransfer_ok_iff,
    Except.ok.injEq] at hok
  obtain ⟨-, -, -, -, -, -, -, htk, -, -, a, hma, a1, hda, b, hmb, a2, hdb, c, hmc,
    a3, hdc, -, -, a4, hif1, a5, hif2, rfl⟩ := hok
  obtain rfl := checkedMul128_some hma
  obtain rfl := checkedDiv_some hda
  obtain rfl := checkedMul128_some hmb
  obtain rfl := checkedDiv_some hdb
  obtain rfl := checkedMul128_some hmc
  obtain rfl := checkedDiv_some hdc
  have hm1 : 10000 - escrowBpOf st - TEAM_FEES_BASIS_POINTS ≤ 10000 := by omega
  have hm2 : TEAM_FEES_BASIS_POINTS ≤ 10000 := by norm_num [TEAM_FEES_BASIS_POINTS]
  have hA := u64Cast_cut hP hm1
  have hB := u64Cast_cut hP hm2
  have hcut : st.authorized_withdrawer_cost * escrowBpOf st / 10000 < U64 :=
    lt_of_le_of_lt (cut_le (escrowBpOf_le st)) hP
  have hC := to_escrow_eq st.secondary_items
    (st.authorized_withdrawer_cost * escrowBpOf st / 10000) hcut
  obtain ⟨g1, g2, g3⟩ := amountTo_buyList payerK
    (u64Cast (st.authorized_withdrawer_cost
      * (10000 - escrowBpOf st - TEAM_FEES_BASIS_POINTS) / 10000))
    ((secondaryItemCost st.secondary_items * 2 % U64
      + u64Cast (st.authorized_withdrawer_cost * escrowBpOf st / 10000)) % U64)
    (u64Cast (st.authorized_withdrawer_cost * TEAM_FEES_BASIS_POINTS / 10000))
    hne1 hne2 hne3
  refine ⟨?_, ?_, ?_, fun _ => ?_⟩
  · simpa only [hA] using g1
  · simpa only [hB] using g3
  · simpa only [hC] using g2
  · simp only [ESCROWED_BASIS_POINTS, TEAM_FEES_BASIS_POINTS]
    constructor <;> omega

/-- C2 witness: a concrete Buy of a 10000-lamport listing with one item of
cost 5 pays the seller 7990, the team 10 and the escrow 2 * 5 + 2000 = 2010,
and the cuts 7990 + 2000 + 10 add back to the price exactly. -/
theorem c2_buy_fee_split_witness :
    amountTo [Transfer.mk payerKey awKey 7990, Transfer.mk payerKey escrowKey 2010,
        Transfer.mk payerKey TEAM_ADDRESS 10] awKey = 7990
    ∧ amountTo [Transfer.mk payerKey awKey 7990, Transfer.mk payerKey escrowKey 2010,
        Transfer.mk payerKey TEAM_ADDRESS 10] TEAM_ADDRESS = 10
    ∧ amountTo [Transfer.mk payerKey awKey 7990, Transfer.mk payerKey escrowKey 2010,
        Transfer.mk payerKey TEAM_ADDRESS 10] escrowKey = 2010
    ∧ ([itemOfCost 5] ≠ [] → 10000 - 2 ≤ 7990 + 2000 + 10 ∧ 7990 + 2000 + 10 ≤ 10000) :=
  c2_buy_fee_split
    { baseStorage with
        authorized_withdrawer_cost := 10000
        secondary_items := [itemOfCost 5] }
    true true payerKey escrowKey TEAM_ADDRESS 1000000 99
    (BuyResult.mk
      { baseStorage with
          authorized_withdrawer_cost := 10000
          secondary_items := [itemOfCost 5]
          purchase := some (Purchase.mk payerKey 99 none) }
      [Transfer.mk payerKey awKey 7990, Transfer.mk payerKey escrowKey 2010,
        Transfer.mk payerKey TEAM_ADDRESS 10]
      989990)
    (by norm_num [U64]) (by decide) (by decide) (by decide) rfl

end Markets
